import Mathlib

/-!
Verification of the market-pulse multi-agent service against its specification.

The Python sources are shallowly embedded as Lean definitions:

* `app/agents/summary_generation_agent.py` — `SummaryGenerationAgent`
  (`execute`, `_generate_causal_summaries`, `_create_causal_bullet`,
  `_create_theme_bullet`, `_has_causal_language`, `_generate_trending_now`,
  `_generate_executive_summary`, `_extract_key_takeaways`, `CAUSAL_KEYWORDS`).
* `app/constants/themes.py` — `ALLOWED_THEMES`, `NEWS_TYPE_TO_THEME`,
  `SECTOR_KEYWORDS_TO_THEME`, `normalize_theme_to_allowed`.
* `app/utils/vertex_ai_client.py` — `VertexAIClient.chat_with_tools` and
  `VertexAIClient.parse_json_response`.
* `app/services/cache_service.py` — `CacheService.get` / `CacheService.set`.

Python strings are modelled as Lean `String` (operating on their `List Char`
code points, which matches Python's code-point slicing and containment for the
ASCII data involved), floats in `[0,1]` as `ℚ`, timestamps as `Int`, and
exceptions as `Except`/`Option` results.  Stdlib collaborators that the code
calls but does not define (the Gemini SDK chat session, `json.loads`,
pydantic validation, the redis client) are passed in as explicit oracles.
-/

/-! ### Python string primitives -/

/-- Lower-case an ASCII character (models `str.lower` on the ASCII data used). -/
def charLower (c : Char) : Char :=
  if 'A' ≤ c ∧ c ≤ 'Z' then Char.ofNat (c.toNat + 32) else c

/-- Models Python `s.lower()`. -/
def strLower (s : String) : String :=
  String.mk (s.data.map charLower)

/-- Boolean test that `n` is a prefix of `h` (character lists). -/
def listIsPre : List Char → List Char → Bool
  | [], _ => true
  | _ :: _, [] => false
  | a :: as, b :: bs => a == b && listIsPre as bs

/-- Boolean test that `n` occurs as a contiguous sublist of `h`. -/
def listIsSub (n : List Char) : List Char → Bool
  | [] => listIsPre n []
  | c :: cs => listIsPre n (c :: cs) || listIsSub n cs

/-- Models Python `needle in hay` on strings. -/
def pyIn (needle hay : String) : Bool :=
  listIsSub needle.data hay.data

/-- Models Python `s.startswith(p)`. -/
def pyStartsWith (s p : String) : Bool :=
  listIsPre p.data s.data

/-- Models Python `s.endswith(p)`. -/
def pyEndsWith (s p : String) : Bool :=
  listIsPre p.data.reverse s.data.reverse

/-- Models Python `s[:n]` for `n ≥ 0`. -/
def strTake (s : String) (n : Nat) : String :=
  String.mk (s.data.take n)

/-- Models Python `s[n:]` for `n ≥ 0`. -/
def strDrop (s : String) (n : Nat) : String :=
  String.mk (s.data.drop n)

/-- Models Python `s[:-n]`. -/
def strDropLast (s : String) (n : Nat) : String :=
  String.mk (s.data.take (s.data.length - n))

/-- Default whitespace characters of Python `str.strip()`. -/
def isPyWS (c : Char) : Bool :=
  c == ' ' || c == '\t' || c == '\n' || c == '\r' || c == '\x0b' || c == '\x0c'

/-- Models Python `s.strip()`. -/
def pyStrip (s : String) : String :=
  String.mk (((s.data.dropWhile isPyWS).reverse.dropWhile isPyWS).reverse)

theorem listIsPre_iff (n h : List Char) : listIsPre n h = true ↔ n <+: h := by
  induction n generalizing h with
  | nil => simp [listIsPre]
  | cons a as ih =>
    cases h with
    | nil => simp [listIsPre]
    | cons b bs =>
      simp only [listIsPre, Bool.and_eq_true, beq_iff_eq, ih, List.cons_prefix_cons]

theorem listIsSub_iff (n h : List Char) : listIsSub n h = true ↔ n <:+: h := by
  induction h with
  | nil =>
    simp only [listIsSub, listIsPre_iff, List.prefix_nil, List.infix_nil]
  | cons c cs ih =>
    simp only [listIsSub, Bool.or_eq_true, listIsPre_iff, ih, List.infix_cons_iff]

theorem pyIn_iff (needle hay : String) :
    pyIn needle hay = true ↔ needle.data <:+: hay.data :=
  listIsSub_iff _ _

/-! ### Stable descending sort

Python's `sorted(xs, key=k, reverse=True)` is the unique stable sort that is
non-increasing in `k`.  Insertion sort that inserts each earlier element in
front of the first element whose key is `≤` its own key computes exactly that
function. -/

/-- Insert `a` in front of the first element whose key is `≤ k a`. -/
def insertDescBy {α β : Type} [LinearOrder β] (k : α → β) (a : α) : List α → List α
  | [] => [a]
  | b :: bs => if k b ≤ k a then a :: b :: bs else b :: insertDescBy k a bs

/-- Stable sort by non-increasing key (models `sorted(xs, key=k, reverse=True)`). -/
def sortDescBy {α β : Type} [LinearOrder β] (k : α → β) : List α → List α
  | [] => []
  | a :: as => insertDescBy k a (sortDescBy k as)

theorem mem_insertDescBy {α β : Type} [LinearOrder β] (k : α → β) (a x : α)
    (l : List α) : x ∈ insertDescBy k a l ↔ x = a ∨ x ∈ l := by
  induction l with
  | nil => simp [insertDescBy]
  | cons b bs ih =>
    by_cases hb : k b ≤ k a
    · simp [insertDescBy, hb]
    · simp only [insertDescBy, if_neg hb, List.mem_cons, ih]
      tauto

theorem mem_sortDescBy {α β : Type} [LinearOrder β] (k : α → β) (x : α)
    (l : List α) : x ∈ sortDescBy k l ↔ x ∈ l := by
  induction l with
  | nil => simp [sortDescBy]
  | cons a as ih =>
    simp only [sortDescBy, mem_insertDescBy, ih, List.mem_cons]

theorem pairwise_insertDescBy {α β : Type} [LinearOrder β] (k : α → β) (a : α)
    (l : List α) (hl : l.Pairwise (fun x y => k y ≤ k x)) :
    (insertDescBy k a l).Pairwise (fun x y => k y ≤ k x) := by
  induction l with
  | nil => simp [insertDescBy]
  | cons b bs ih =>
    rcases List.pairwise_cons.mp hl with ⟨hb, hbs⟩
    by_cases hba : k b ≤ k a
    · rw [insertDescBy, if_pos hba]
      refine List.pairwise_cons.mpr ⟨?_, hl⟩
      intro y hy
      rcases List.mem_cons.mp hy with rfl | hy
      · exact hba
      · exact le_trans (hb y hy) hba
    · rw [insertDescBy, if_neg hba]
      refine List.pairwise_cons.mpr ⟨?_, ih hbs⟩
      intro y hy
      rcases (mem_insertDescBy k a y bs).mp hy with rfl | hy
      · exact le_of_lt (lt_of_not_le hba)
      · exact hb y hy

theorem pairwise_sortDescBy {α β : Type} [LinearOrder β] (k : α → β)
    (l : List α) : (sortDescBy k l).Pairwise (fun x y => k y ≤ k x) := by
  induction l with
  | nil => simp [sortDescBy]
  | cons a as ih => exact pairwise_insertDescBy k a _ ih

/-! ### Domain model

Structures follow `app/models/domain.py` / `app/models/agent_schemas.py`
(referenced by the agent but absent from the provided sources); their fields
are taken from the spec's data-model section and from how the agent code uses
them.  Confidences are `ℚ`, timestamps are `Int`. -/

/-- Modelled from the spec: `MarketPhase ∈ (pre, mid, post)` is a closed
enumeration (the pydantic input schema in `app/models/agent_schemas.py` is not
part of the provided sources). -/
inductive MarketPhase where
  | pre
  | mid
  | post
deriving DecidableEq

/-- A news item (`app/models/domain.py`, fields used by the agent). -/
structure NewsItem where
  id : String
  headline : String
  published_at : Int
  sentiment : String
deriving DecidableEq

/-- A stock impacted by a news item; only `ticker` is read by the agent. -/
structure ImpactedStock where
  ticker : String
deriving DecidableEq

/-- A news item with its impact analysis. -/
structure NewsWithImpact where
  news_id : String
  news_item : NewsItem
  impacted_stocks : List ImpactedStock
  sector_impacts : List (String × String)
  impact_confidence : ℚ
deriving DecidableEq

/-- A refined theme group. -/
structure ThemeGroup where
  theme_name : String
  news_items : List NewsItem
  overall_sentiment : String
  impacted_stocks : List String
deriving DecidableEq

/-- Market outlook (fields used by the summary agent). -/
structure MarketOutlook where
  sentiment : String
  nifty_change_percent : ℚ
deriving DecidableEq

/-- Portfolio impact (fields used by the summary agent). -/
structure PortfolioImpact where
  overall_sentiment : String
  top_affected_holdings : List String
deriving DecidableEq

/-- Input of `SummaryGenerationAgent.execute`. -/
structure SummaryGenerationAgentInput where
  market_phase : MarketPhase
  news_with_impacts : List NewsWithImpact
  refined_themes : List ThemeGroup
  market_outlook : Option MarketOutlook
  portfolio_impact : Option PortfolioImpact
  indices_data : List (String × String)
  max_bullets : Nat
deriving DecidableEq

/-- A market summary bullet (`app/models/domain.py`). -/
structure MarketSummaryBullet where
  text : String
  supporting_news_ids : List String
  confidence : ℚ
  sentiment : String
deriving DecidableEq

/-- The `generation_metadata` dict built by `execute`. -/
structure GenerationMetadata where
  bullets_generated : Nat
  market_phase : MarketPhase
  news_analyzed : Nat
  themes_used : Nat
deriving DecidableEq

/-- Output of `SummaryGenerationAgent.execute`. -/
structure SummaryGenerationAgentOutput where
  market_summary_bullets : Option (List MarketSummaryBullet)
  trending_now_section : Option (List NewsItem)
  executive_summary : String
  key_takeaways : List String
  generation_metadata : GenerationMetadata
deriving DecidableEq

/-! ### `app/agents/summary_generation_agent.py` -/

/-- `CAUSAL_KEYWORDS` — causal keywords that must be present in summaries. -/
def CAUSAL_KEYWORDS : List String :=
  ["due to", "after", "following", "driven by", "as", "because",
   "on account of", "amid", "on the back of", "triggered by", "led by",
   "supported by", "weighed by"]

/-- `SummaryGenerationAgent._has_causal_language` (the local `text_lower` is
inlined). -/
def _has_causal_language (text : String) : Bool :=
  CAUSAL_KEYWORDS.any (fun keyword => pyIn keyword (strLower text))

/-- Models the Python format expression `f"{q:.1f}"` (one decimal place;
rounds half up, where CPython rounds the underlying float half to even — no
claim depends on the rendering of half-way cases). -/
def fmt1 (q : ℚ) : String :=
  let r : Int := ⌊q * 10 + 1 / 2⌋
  let a := r.natAbs
  (if r < 0 then "-" else "") ++ toString (a / 10) ++ "." ++ toString (a % 10)

/-- The `outlook_text` computed at the top of `_generate_causal_summaries`. -/
def outlookText (input_data : SummaryGenerationAgentInput) : String :=
  match input_data.market_outlook with
  | none => ""
  | some o =>
    let direction := if o.sentiment = "bullish" then "higher"
      else if o.sentiment = "bearish" then "lower" else "flat"
    let change := |o.nifty_change_percent|
    "Markets trading " ++ direction ++ " by " ++ fmt1 change ++ "%"

/-- `SummaryGenerationAgent._create_causal_bullet`. -/
def _create_causal_bullet (nwi : NewsWithImpact)
    (indices_data : List (String × String)) (outlook_text : String) : String :=
  let news := nwi.news_item
  let connectors : List String :=
    if news.sentiment = "bullish" then ["driven by", "supported by", "on the back of"]
    else if news.sentiment = "bearish" then ["weighed by", "pressured by", "following"]
    else ["amid", "following", "as"]
  let connector := connectors.headD ""
  if nwi.impacted_stocks ≠ [] then
    let affected := String.intercalate ", " ((nwi.impacted_stocks.take 3).map (·.ticker))
    affected ++ " " ++ (if news.sentiment = "bullish" then "gained" else "faced pressure")
      ++ " " ++ connector ++ " " ++ strTake (strLower news.headline) 60 ++ "."
  else if nwi.sector_impacts ≠ [] then
    let sector := (nwi.sector_impacts.headD ("", "")).1
    let impact := (nwi.sector_impacts.headD ("", "")).2
    sector ++ " sector shows " ++ impact ++ " momentum " ++ connector ++ " "
      ++ strTake (strLower news.headline) 50 ++ "."
  else ""

/-- `SummaryGenerationAgent._create_theme_bullet`. -/
def _create_theme_bullet (theme : ThemeGroup) (outlook_text : String) : String :=
  let sentiment_words : List (String × String) :=
    [("bullish", "positive momentum"), ("bearish", "headwinds"),
     ("neutral", "consolidation"), ("mixed", "mixed signals")]
  let sentiment_desc :=
    ((sentiment_words.find? (fun p => p.1 == theme.overall_sentiment)).map (·.2)).getD "movement"
  if theme.impacted_stocks ≠ [] then
    let stocks := String.intercalate ", " (theme.impacted_stocks.take 3)
    stocks ++ " showing " ++ sentiment_desc ++ " driven by "
      ++ strLower theme.theme_name ++ " developments."
  else
    theme.theme_name ++ " sector seeing " ++ sentiment_desc
      ++ " on the back of recent news flow."

/-- The theme lookup at the head of the news loop of
`_generate_causal_summaries`: find the first refined theme containing the
news id and record its name in `used_themes` if not already present. -/
def updateUsedThemes (themes : List ThemeGroup) (nwi : NewsWithImpact)
    (used : List String) : List String :=
  match themes.find? (fun theme => (theme.news_items.map (·.id)).contains nwi.news_id) with
  | some theme =>
    if used.contains theme.theme_name then used else theme.theme_name :: used
  | none => used

/-- The first loop of `_generate_causal_summaries` (bullets from top news),
carrying the accumulated `bullets` and `used_themes`. -/
def _causal_phase1 (input_data : SummaryGenerationAgentInput)
    (outlook_text : String) :
    List NewsWithImpact → List MarketSummaryBullet → List String →
    List MarketSummaryBullet × List String
  | [], bullets, used => (bullets, used)
  | nwi :: rest, bullets, used =>
    if input_data.max_bullets ≤ bullets.length then (bullets, used)
    else
      if _create_causal_bullet nwi input_data.indices_data outlook_text ≠ "" ∧
          _has_causal_language (_create_causal_bullet nwi input_data.indices_data outlook_text) = true then
        _causal_phase1 input_data outlook_text rest
          (bullets ++ [{ text := _create_causal_bullet nwi input_data.indices_data outlook_text,
                         supporting_news_ids := [nwi.news_id],
                         confidence := nwi.impact_confidence,
                         sentiment := if nwi.news_item.sentiment = "bullish" then "bullish"
                           else if nwi.news_item.sentiment = "bearish" then "bearish"
                           else "neutral" }])
          (updateUsedThemes input_data.refined_themes nwi used)
      else
        _causal_phase1 input_data outlook_text rest bullets
          (updateUsedThemes input_data.refined_themes nwi used)

/-- The second loop of `_generate_causal_summaries` (bullets from themes).
The literal `0.75` of the source is `mkRat 3 4`. -/
def _causal_phase2 (input_data : SummaryGenerationAgentInput)
    (outlook_text : String) :
    List ThemeGroup → List MarketSummaryBullet → List String →
    List MarketSummaryBullet
  | [], bullets, _ => bullets
  | theme :: rest, bullets, used =>
    if input_data.max_bullets ≤ bullets.length then bullets
    else if used.contains theme.theme_name then
      _causal_phase2 input_data outlook_text rest bullets used
    else
      if _create_theme_bullet theme outlook_text ≠ "" ∧
          _has_causal_language (_create_theme_bullet theme outlook_text) = true then
        _causal_phase2 input_data outlook_text rest
          (bullets ++ [{ text := _create_theme_bullet theme outlook_text,
                         supporting_news_ids := (theme.news_items.take 2).map (·.id),
                         confidence := mkRat 3 4,
                         sentiment := theme.overall_sentiment }]) used
      else
        _causal_phase2 input_data outlook_text rest bullets used

/-- The news list considered by the first loop of
`_generate_causal_summaries`: `sorted_news[:5]`, the news sorted by
`impact_confidence` descending, top 5. -/
def topSortedNews (input_data : SummaryGenerationAgentInput) : List NewsWithImpact :=
  (sortDescBy (fun nwi => nwi.impact_confidence) input_data.news_with_impacts).take 5

/-- `SummaryGenerationAgent._generate_causal_summaries`: the news loop
followed by the theme loop over the same accumulator. -/
def _generate_causal_summaries (input_data : SummaryGenerationAgentInput) :
    List MarketSummaryBullet :=
  _causal_phase2 input_data (outlookText input_data) input_data.refined_themes
    (_causal_phase1 input_data (outlookText input_data) (topSortedNews input_data) [] []).1
    (_causal_phase1 input_data (outlookText input_data) (topSortedNews input_data) [] []).2

/-- `SummaryGenerationAgent._generate_trending_now` (locals inlined). -/
def _generate_trending_now (input_data : SummaryGenerationAgentInput) :
    List NewsItem :=
  (sortDescBy (fun item => item.published_at)
    (input_data.news_with_impacts.map (fun nwi => nwi.news_item))).take 5

/-- `SummaryGenerationAgent._generate_executive_summary` (the `bullets`
parameter is accepted and ignored, exactly as in the source). -/
def _generate_executive_summary (input_data : SummaryGenerationAgentInput)
    (_bullets : Option (List MarketSummaryBullet)) : String :=
  let parts : List String :=
    (match input_data.market_outlook with
     | none => []
     | some o =>
       let change := o.nifty_change_percent
       if o.sentiment = "bullish" then
         ["Markets trading higher with NIFTY up " ++ fmt1 change ++ "%."]
       else if o.sentiment = "bearish" then
         ["Markets under pressure with NIFTY down " ++ fmt1 |change| ++ "%."]
       else
         ["Markets trading flat with NIFTY at " ++ fmt1 change ++ "%."]) ++
    (match input_data.refined_themes with
     | [] => []
     | top_theme :: _ =>
       if top_theme.overall_sentiment = "bullish" then
         ["Key driver: " ++ top_theme.theme_name ++ " providing support."]
       else if top_theme.overall_sentiment = "bearish" then
         ["Pressure from: " ++ top_theme.theme_name ++ " weighing on sentiment."]
       else []) ++
    (match input_data.portfolio_impact with
     | none => []
     | some pi =>
       if pi.overall_sentiment = "positive" then
         ["Your portfolio positioned to benefit from current trends."]
       else if pi.overall_sentiment = "negative" then
         ["Monitor portfolio exposure to current headwinds."]
       else [])
  if parts ≠ [] then String.intercalate " " parts
  else "Market activity ongoing. Key developments being monitored."

/-- `SummaryGenerationAgent._extract_key_takeaways`. -/
def _extract_key_takeaways (input_data : SummaryGenerationAgentInput) :
    List String :=
  let takeaways : List String :=
    (match input_data.market_outlook with
     | none => []
     | some o => ["Market sentiment is " ++ o.sentiment]) ++
    ((input_data.refined_themes.take 2).filterMap (fun theme =>
      if theme.overall_sentiment = "bullish" then
        some (theme.theme_name ++ " showing strength")
      else if theme.overall_sentiment = "bearish" then
        some ("Caution in " ++ theme.theme_name)
      else none)) ++
    (match input_data.portfolio_impact with
     | none => []
     | some pi =>
       match pi.top_affected_holdings with
       | [] => []
       | top :: _ => ["Watch " ++ top ++ " for near-term movement"])
  takeaways.take 4

/-- `SummaryGenerationAgent.execute` (logging dropped; the execution context
is only used for logging). -/
def execute (input_data : SummaryGenerationAgentInput) :
    SummaryGenerationAgentOutput :=
  if input_data.market_phase = MarketPhase.mid then
    { market_summary_bullets := none,
      trending_now_section := some (_generate_trending_now input_data),
      executive_summary := _generate_executive_summary input_data none,
      key_takeaways := _extract_key_takeaways input_data,
      generation_metadata :=
        { bullets_generated := 0,
          market_phase := input_data.market_phase,
          news_analyzed := input_data.news_with_impacts.length,
          themes_used := input_data.refined_themes.length } }
  else
    { market_summary_bullets := some (_generate_causal_summaries input_data),
      trending_now_section := none,
      executive_summary :=
        _generate_executive_summary input_data (some (_generate_causal_summaries input_data)),
      key_takeaways := _extract_key_takeaways input_data,
      generation_metadata :=
        { bullets_generated := (_generate_causal_summaries input_data).length,
          market_phase := input_data.market_phase,
          news_analyzed := input_data.news_with_impacts.length,
          themes_used := input_data.refined_themes.length } }

/-! ### `app/constants/themes.py` -/

/-- `MAX_THEMED_NEWS_ITEMS`. -/
def MAX_THEMED_NEWS_ITEMS : Nat := 5

/-- `ALLOWED_THEMES` — allowed theme display names (exact strings). -/
def ALLOWED_THEMES : List String :=
  ["Banking & Financials",
   "Information Technology (IT)",
   "Oil, Gas & Energy",
   "FMCG & Consumer Staples",
   "Consumer Discretionary",
   "Automobiles & Auto Ancillaries",
   "Pharma & Healthcare",
   "Metals & Mining",
   "Infrastructure & Capital Goods",
   "Real Estate",
   "Global Market Cues",
   "RBI & Interest Rates",
   "Commodities & Crude Prices",
   "FII & DII Flows",
   "EV, Green Energy & New-Age Themes"]

/-- `NEWS_TYPE_TO_THEME` — insertion-ordered dict as an association list. -/
def NEWS_TYPE_TO_THEME : List (String × String) :=
  [("economy", "RBI & Interest Rates"),
   ("economic & policy updates", "RBI & Interest Rates"),
   ("foreign markets", "Global Market Cues"),
   ("global market updates", "Global Market Cues"),
   ("other markets", "Commodities & Crude Prices"),
   ("commodities & forex", "Commodities & Crude Prices"),
   ("general", "Global Market Cues")]

/-- `SECTOR_KEYWORDS_TO_THEME`. -/
def SECTOR_KEYWORDS_TO_THEME : List (List String × String) :=
  [(["banking", "banks", "nbfc", "financials", "insurer", "lending"], "Banking & Financials"),
   (["it", "information technology", "software", "tech", "export"], "Information Technology (IT)"),
   (["oil", "gas", "energy", "power", "utilities", "upstream", "downstream"], "Oil, Gas & Energy"),
   (["fmcg", "consumer staples", "staples", "defensive"], "FMCG & Consumer Staples"),
   (["consumer discretionary", "retail", "durables"], "Consumer Discretionary"),
   (["auto", "automobile", "oem", "ancillar"], "Automobiles & Auto Ancillaries"),
   (["pharma", "healthcare", "diagnostic", "hospital"], "Pharma & Healthcare"),
   (["metals", "mining", "steel", "aluminium"], "Metals & Mining"),
   (["infrastructure", "capital goods", "construction", "engineering"], "Infrastructure & Capital Goods"),
   (["real estate", "realty", "housing"], "Real Estate"),
   (["global", "us ", "europe", "asia", "overnight", "cues"], "Global Market Cues"),
   (["rbi", "interest rate", "monetary", "liquidity", "yield"], "RBI & Interest Rates"),
   (["commodit", "crude", "agri"], "Commodities & Crude Prices"),
   (["fii", "dii", "flow", "institutional"], "FII & DII Flows"),
   (["ev", "green energy", "renewable", "energy transition", "new-age"], "EV, Green Energy & New-Age Themes")]

/-- Python dict lookup `d[key]` / `key in d` on an insertion-ordered dict with
unique keys, as an association-list search. -/
def dictLookup (d : List (String × String)) (key : String) : Option String :=
  (d.find? (fun p => p.1 == key)).map (·.2)

/-- The sector-keyword scan of `normalize_theme_to_allowed`: first pair whose
keyword list has a member contained in `key`. -/
def findSectorTheme (key : String) : Option String :=
  (SECTOR_KEYWORDS_TO_THEME.find? (fun p => p.1.any (fun kw => pyIn kw key))).map (·.2)

/-- The fuzzy `news_type` scan of the suffix fallback: first dict pair with
`k in base or base in k`. -/
def newsTypeFuzzy (base : String) : Option String :=
  (NEWS_TYPE_TO_THEME.find? (fun p => pyIn p.1 base || pyIn base p.1)).map (·.2)

/-- The local `base = key[: -len(suffix)].strip()` of the suffix fallback of
`normalize_theme_to_allowed`. -/
def suffixBase (key sfx : String) : String :=
  pyStrip (strDropLast key sfx.data.length)

/-- One iteration of the suffix-stripping fallback loop of
`normalize_theme_to_allowed` (`none` both when the suffix does not match and
when no inner lookup fires, after which Python falls through). -/
def trySuffix (key sfx : String) : Option String :=
  if pyEndsWith key sfx = true then
    if ALLOWED_THEMES.contains (suffixBase key sfx) then some (suffixBase key sfx)
    else
      match newsTypeFuzzy (suffixBase key sfx) with
      | some v => some v
      | none => findSectorTheme (suffixBase key sfx)
  else none

/-- `normalize_theme_to_allowed` (the `isinstance` guard always holds for the
string-typed embedding; `if not theme_name` rejects the empty string). -/
def normalize_theme_to_allowed (theme_name : String) : Option String :=
  if theme_name = "" then none
  else if ALLOWED_THEMES.contains (pyStrip theme_name) then some (pyStrip theme_name)
  else
    match dictLookup NEWS_TYPE_TO_THEME (strLower (pyStrip theme_name)) with
    | some v => some v
    | none =>
      match findSectorTheme (strLower (pyStrip theme_name)) with
      | some v => some v
      | none =>
        match trySuffix (strLower (pyStrip theme_name)) " news" with
        | some v => some v
        | none => trySuffix (strLower (pyStrip theme_name)) " update"

/-! ### Theme-normalization lemmas -/

theorem dictLookup_mem {d : List (String × String)} {key y : String}
    (h : dictLookup d key = some y) : ∃ p ∈ d, p.2 = y := by
  unfold dictLookup at h
  cases hf : d.find? (fun p => p.1 == key) with
  | none => rw [hf] at h; exact Option.noConfusion h
  | some p =>
    rw [hf] at h
    simp only [Option.map_some', Option.some_inj] at h
    exact ⟨p, List.mem_of_find?_eq_some hf, h⟩

theorem findSectorTheme_mem {key y : String} (h : findSectorTheme key = some y) :
    ∃ p ∈ SECTOR_KEYWORDS_TO_THEME, p.2 = y := by
  unfold findSectorTheme at h
  cases hf : SECTOR_KEYWORDS_TO_THEME.find? (fun p => p.1.any (fun kw => pyIn kw key)) with
  | none => rw [hf] at h; exact Option.noConfusion h
  | some p =>
    rw [hf] at h
    simp only [Option.map_some', Option.some_inj] at h
    exact ⟨p, List.mem_of_find?_eq_some hf, h⟩

theorem newsTypeFuzzy_mem {base y : String} (h : newsTypeFuzzy base = some y) :
    ∃ p ∈ NEWS_TYPE_TO_THEME, p.2 = y := by
  unfold newsTypeFuzzy at h
  cases hf : NEWS_TYPE_TO_THEME.find? (fun p => pyIn p.1 base || pyIn base p.1) with
  | none => rw [hf] at h; exact Option.noConfusion h
  | some p =>
    rw [hf] at h
    simp only [Option.map_some', Option.some_inj] at h
    exact ⟨p, List.mem_of_find?_eq_some hf, h⟩

/-- Every value of the news-type dict is an allowed theme. -/
theorem news_type_values_allowed : ∀ p ∈ NEWS_TYPE_TO_THEME, p.2 ∈ ALLOWED_THEMES := by
  decide

/-- Every value of the sector-keyword table is an allowed theme. -/
theorem sector_values_allowed : ∀ p ∈ SECTOR_KEYWORDS_TO_THEME, p.2 ∈ ALLOWED_THEMES := by
  decide

theorem trySuffix_mem_allowed {key sfx y : String} (h : trySuffix key sfx = some y) :
    y ∈ ALLOWED_THEMES := by
  unfold trySuffix at h
  split at h
  · split at h
    next hc => cases h; exact List.elem_iff.mp hc
    next =>
      split at h
      next v hv =>
        cases h
        obtain ⟨p, hp, hpy⟩ := newsTypeFuzzy_mem hv
        exact hpy ▸ news_type_values_allowed p hp
      next hv =>
        obtain ⟨p, hp, hpy⟩ := findSectorTheme_mem h
        exact hpy ▸ sector_values_allowed p hp
  · exact Option.noConfusion h

/-- Every successful normalization lands in the allowed-theme catalog. -/
theorem mem_allowed_of_normalize {x y : String}
    (h : normalize_theme_to_allowed x = some y) : y ∈ ALLOWED_THEMES := by
  unfold normalize_theme_to_allowed at h
  split at h
  · exact Option.noConfusion h
  · split at h
    next hc => cases h; exact List.elem_iff.mp hc
    next =>
      split at h
      next v hv =>
        cases h
        obtain ⟨p, hp, hpy⟩ := dictLookup_mem hv
        exact hpy ▸ news_type_values_allowed p hp
      next =>
        split at h
        next v hv =>
          cases h
          obtain ⟨p, hp, hpy⟩ := findSectorTheme_mem hv
          exact hpy ▸ sector_values_allowed p hp
        next =>
          split at h
          next v hv => cases h; exact trySuffix_mem_allowed hv
          next => exact trySuffix_mem_allowed h

set_option maxRecDepth 8000 in
/-- Every allowed theme normalizes to itself (by the exact-match branch). -/
theorem normalize_allowed_self :
    ∀ y ∈ ALLOWED_THEMES, normalize_theme_to_allowed y = some y := by
  decide

/-- Claim C8: theme normalization is idempotent — for every string `x`,
normalizing the result of `normalize_theme_to_allowed x` (when it is not a
rejection) gives the same result, because every non-`none` result is a member
of the 15-entry allowed-theme catalog, and catalog members normalize to
themselves by the exact-match branch. -/
theorem C8_normalize_theme_idempotent :
    ALLOWED_THEMES.length = 15 ∧
    ∀ x : String,
      (normalize_theme_to_allowed x).bind normalize_theme_to_allowed =
        normalize_theme_to_allowed x ∧
      ∀ y : String, normalize_theme_to_allowed x = some y → y ∈ ALLOWED_THEMES := by
  refine ⟨rfl, fun x => ⟨?_, fun y hy => mem_allowed_of_normalize hy⟩⟩
  cases hx : normalize_theme_to_allowed x with
  | none => rfl
  | some y =>
    show normalize_theme_to_allowed y = some y
    exact normalize_allowed_self y (mem_allowed_of_normalize hx)

/-- Witness for C8 at the concrete input "economy" (which normalizes through
the news-type dictionary). -/
theorem C8_witness :
    (normalize_theme_to_allowed "economy").bind normalize_theme_to_allowed =
      normalize_theme_to_allowed "economy" ∧
    "RBI & Interest Rates" ∈ ALLOWED_THEMES :=
  ⟨(C8_normalize_theme_idempotent.2 "economy").1,
   (C8_normalize_theme_idempotent.2 "economy").2 "RBI & Interest Rates" (by decide)⟩

/-! ### `app/utils/vertex_ai_client.py`

The Gemini SDK chat session is modelled as an oracle `respond : Nat → ChatResponse`
giving the model's reply to the `i`-th `send_message` call (the initial prompt
is send 0); `response.text` is modelled as the response's `text` field.  Tool
handlers are modelled as `String → Option (String → ToolOutcome)`: `none` for
an unregistered name, and a registered handler maps its (serialized) arguments
either to a value or to a raised exception. -/

/-- One part of a model response; `function_call` carries (name, args). -/
structure ChatPart where
  function_call : Option (String × String)
deriving DecidableEq

/-- One candidate of a model response. -/
structure ChatCandidate where
  parts : List ChatPart
deriving DecidableEq

/-- A model response: its candidates and its `.text` accessor value. -/
structure ChatResponse where
  candidates : List ChatCandidate
  text : String
deriving DecidableEq

/-- Outcome of running a registered tool handler. -/
inductive ToolOutcome where
  | ok (result : String)
  | exn (message : String)
deriving DecidableEq

/-- The payload of a `FunctionResponse` part sent back to the model:
either a result field or an error field. -/
inductive ToolReply where
  | result (value : String)
  | error (message : String)
deriving DecidableEq

/-- Modelled from the spec: `AgentReasoningError` (`app/utils/exceptions.py`,
absent from the provided sources) carries the agent name, a message, and a
truncated prefix of the raw response (the spec: the error includes a truncated
prefix of the raw text; 500 characters, matching the log preview).  `other`
stands for any exception of a different class propagating unchanged. -/
inductive PyErr where
  | reasoning (agent_name message : String) (raw_response : Option String)
  | other (message : String)
deriving DecidableEq

/-- The per-call tool dispatch inside the loop of `chat_with_tools`
(lines 187–228): a registered handler's result is wrapped as a result payload,
a raised handler exception is caught and wrapped as an error payload, and an
unregistered name yields the unknown-tool error payload. -/
def toolReplyFor (tool_handlers : String → Option (String → ToolOutcome))
    (name args : String) : ToolReply :=
  match tool_handlers name with
  | some handler =>
    match handler args with
    | ToolOutcome.ok r => ToolReply.result r
    | ToolOutcome.exn e => ToolReply.error e
  | none => ToolReply.error ("Unknown tool: " ++ name)

/-- The function calls collected from `candidates[0].content.parts`. -/
def functionCallsOf (r : ChatResponse) : List (String × String) :=
  match r.candidates with
  | [] => []
  | c :: _ => c.parts.filterMap (fun part => part.function_call)

/-- The final extraction after the loop (lines 236–240): the response text if
there are candidates, otherwise the empty string. -/
def finalText (r : ChatResponse) : Except PyErr String :=
  if r.candidates.isEmpty then Except.ok "" else Except.ok r.text

/-- The `while turns < max_turns` loop of `chat_with_tools`: `i` is the index
of the current response, the remaining turn budget is the recursion fuel.  The
function-response payloads are computed each iteration and sent back; the
oracle indexes the following reply. -/
def chatLoop (respond : Nat → ChatResponse)
    (tool_handlers : String → Option (String → ToolOutcome)) :
    Nat → Nat → Except PyErr String
  | i, 0 => finalText (respond i)
  | i, Nat.succ fuel =>
    if (respond i).candidates.isEmpty then finalText (respond i)
    else if functionCallsOf (respond i) = [] then finalText (respond i)
    else
      have _function_responses :=
        (functionCallsOf (respond i)).map (fun fc => toolReplyFor tool_handlers fc.1 fc.2)
      chatLoop respond tool_handlers (i + 1) fuel

/-- `VertexAIClient.chat_with_tools` (default `max_turns` is 10 at call sites). -/
def chat_with_tools (respond : Nat → ChatResponse)
    (tool_handlers : String → Option (String → ToolOutcome))
    (max_turns : Nat) : Except PyErr String :=
  chatLoop respond tool_handlers 0 max_turns

/-- The code-fence stripping of `parse_json_response` (lines 270–278). -/
def stripFences (response_text : String) : String :=
  let text0 := pyStrip response_text
  let text1 := if pyStartsWith text0 "```json" = true then strDrop text0 7 else text0
  let text2 := if pyStartsWith text1 "```" = true then strDrop text1 3 else text1
  let text3 := if pyEndsWith text2 "```" = true then strDropLast text2 3 else text2
  pyStrip text3

/-- `VertexAIClient.parse_json_response`; `json.loads` and the pydantic
constructor `expected_type(**data)` are oracles.  A `json.JSONDecodeError`
becomes an `AgentReasoningError`; any other exception (in particular pydantic
validation failure) is logged and re-raised unchanged by the bare `raise`. -/
def parse_json_response {J T : Type} (jsonLoads : String → Except String J)
    (validate : J → Except String T) (response_text : String) : Except PyErr T :=
  match jsonLoads (stripFences response_text) with
  | Except.error e =>
    Except.error (PyErr.reasoning "google_ai" ("Invalid JSON in response: " ++ e)
      (some (strTake response_text 500)))
  | Except.ok data =>
    match validate data with
    | Except.error e => Except.error (PyErr.other e)
    | Except.ok v => Except.ok v

/-! ### `app/services/cache_service.py`

The redis client is an oracle `RedisClient`; `connect = none` models both a
failed lazy connection and caching being unavailable.  Key generation
(`_generate_cache_key`, i.e. `json.dumps` + md5) and the JSON encoding and
decoding of values are oracles returning `Except` so that a raised exception
inside the `try` block is representable. -/

/-- The redis operations used by the cache service. -/
structure RedisClient where
  getv : String → Except String (Option String)
  setex : String → Nat → String → Except String Unit

/-- `CacheService.get`: returns the decoded cached value, or `None` when
disabled, not connected, or on any failure. -/
def CacheService.get {J : Type} (enabled : Bool) (connect : Option RedisClient)
    (keygen : Except String String) (jsonLoads : String → Except String J) :
    Option J :=
  if enabled = false then none
  else
    match connect with
    | none => none
    | some r =>
      match keygen with
      | Except.error _ => none
      | Except.ok key =>
        match r.getv key with
        | Except.error _ => none
        | Except.ok none => none
        | Except.ok (some cached) =>
          if cached ≠ "" then
            match jsonLoads cached with
            | Except.ok v => some v
            | Except.error _ => none
          else none

/-- `CacheService.set`: stores the encoded output under the generated key with
a TTL, returning success; `False` when disabled, not connected, or on any
failure. -/
def CacheService.set (enabled : Bool) (connect : Option RedisClient)
    (keygen : Except String String) (encode : Except String String)
    (ttl : Nat) : Bool :=
  if enabled = false then false
  else
    match connect with
    | none => false
    | some r =>
      match keygen with
      | Except.error _ => false
      | Except.ok key =>
        match encode with
        | Except.error _ => false
        | Except.ok value =>
          match r.setex key ttl value with
          | Except.error _ => false
          | Except.ok _ => true

/-! ### Chat-loop lemmas and claims about `chat_with_tools` -/

theorem finalText_isOk (r : ChatResponse) : ∃ s, finalText r = Except.ok s := by
  unfold finalText
  split
  · exact ⟨"", rfl⟩
  · exact ⟨r.text, rfl⟩

/-- The tool loop never produces an exception: every run returns a value. -/
theorem chatLoop_isOk (respond : Nat → ChatResponse)
    (tool_handlers : String → Option (String → ToolOutcome)) (fuel i : Nat) :
    ∃ s, chatLoop respond tool_handlers i fuel = Except.ok s := by
  induction fuel generalizing i with
  | zero => exact finalText_isOk _
  | succ fuel ih =>
    rw [chatLoop]
    split
    · exact finalText_isOk _
    · split
      · exact finalText_isOk _
      · exact ih (i + 1)

/-- If every response up to the turn budget keeps issuing function calls, the
loop exhausts its budget and ends on the response of the last send. -/
theorem chatLoop_exhaust (respond : Nat → ChatResponse)
    (tool_handlers : String → Option (String → ToolOutcome)) (fuel i : Nat)
    (h : ∀ j : Nat, i ≤ j → j ≤ i + fuel →
      (respond j).candidates.isEmpty = false ∧ functionCallsOf (respond j) ≠ []) :
    chatLoop respond tool_handlers i fuel = Except.ok ((respond (i + fuel)).text) := by
  induction fuel generalizing i with
  | zero =>
    have hi := h i le_rfl (Nat.le_add_right i 0)
    rw [chatLoop, Nat.add_zero, finalText, hi.1]
    simp
  | succ fuel ih =>
    have hi := h i le_rfl (Nat.le_add_right i (fuel + 1))
    rw [chatLoop]
    rw [hi.1]
    simp only [Bool.false_eq_true, if_false]
    rw [if_neg hi.2]
    have := ih (i + 1) (fun j hj1 hj2 => h j (Nat.le_of_succ_le hj1) (by omega))
    rw [this]
    have harith : i + 1 + fuel = i + (fuel + 1) := by omega
    rw [harith]

/-- If the loop first reaches a response with no candidates at send `k`
(within budget), it stops there. -/
theorem chatLoop_empty_stop (respond : Nat → ChatResponse)
    (tool_handlers : String → Option (String → ToolOutcome)) (fuel i k : Nat)
    (hik : i ≤ k) (hk : k ≤ i + fuel)
    (h : ∀ j : Nat, i ≤ j → j < k →
      (respond j).candidates.isEmpty = false ∧ functionCallsOf (respond j) ≠ [])
    (hempty : (respond k).candidates = []) :
    chatLoop respond tool_handlers i fuel = Except.ok "" := by
  induction fuel generalizing i with
  | zero =>
    have : k = i := by omega
    subst this
    rw [chatLoop, finalText, hempty]
    simp
  | succ fuel ih =>
    by_cases hik2 : i = k
    · subst hik2
      have hemp : (respond i).candidates.isEmpty = true := by rw [hempty]; rfl
      rw [chatLoop, hemp]
      simp only [if_true]
      rw [finalText, hemp]
      simp
    · have hi := h i le_rfl (by omega)
      rw [chatLoop]
      rw [hi.1]
      simp only [Bool.false_eq_true, if_false]
      rw [if_neg hi.2]
      exact ih (i + 1) (by omega) (by omega)
        (fun j hj1 hj2 => h j (by omega) hj2)

/-- A model that answers every send with the same single function-call
response. -/
def exChatResponse : ChatResponse :=
  { candidates := [{ parts := [{ function_call := some ("rank_news_by_importance", "args") }] }],
    text := "partial analysis" }

/-- Constant oracle: the model issues a function call on every turn. -/
def exRespond : Nat → ChatResponse := fun _ => exChatResponse

/-- A handler map with no registered tools. -/
def exHandlers : String → Option (String → ToolOutcome) := fun _ => none

/-- Counterexample to claim C2: with `max_turns = 3` and a model that issues a
function call on every one of the first 4 responses, `chat_with_tools`
returns the final response's text instead of failing with
ReasoningError "tool loop exceeded". -/
theorem C2_counterexample :
    chat_with_tools exRespond exHandlers 3 = Except.ok "partial analysis" ∧
    ((List.range 4).all (fun i => decide (functionCallsOf (exRespond i) ≠ []))) = true ∧
    chat_with_tools exRespond exHandlers 3 ≠
      Except.error (PyErr.reasoning "google_ai" "tool loop exceeded" none) := by
  refine ⟨rfl, rfl, fun hcontra => ?_⟩
  have h1 : chat_with_tools exRespond exHandlers 3 = Except.ok "partial analysis" := rfl
  rw [h1] at hcontra
  exact Except.noConfusion hcontra

/-- Claim C2 (amended): if `max_turns` is exhausted without a text-only
response — every response through the budget still carries function-call
parts — `chat_with_tools` does not raise; it exits the loop and returns the
text of the last response received. -/
theorem C2_amended_tool_loop_returns_text (respond : Nat → ChatResponse)
    (tool_handlers : String → Option (String → ToolOutcome)) (max_turns : Nat)
    (h : ∀ j : Nat, j ≤ max_turns →
      (respond j).candidates.isEmpty = false ∧ functionCallsOf (respond j) ≠ []) :
    chat_with_tools respond tool_handlers max_turns =
      Except.ok ((respond max_turns).text) := by
  have := chatLoop_exhaust respond tool_handlers max_turns 0
    (fun j _ hj2 => h j (by omega))
  rw [chat_with_tools, this]
  rw [Nat.zero_add]

/-- Witness for the amended C2 at the concrete always-calling model. -/
theorem C2_witness :
    chat_with_tools exRespond exHandlers 2 = Except.ok "partial analysis" :=
  C2_amended_tool_loop_returns_text exRespond exHandlers 2
    (fun j _ => ⟨rfl, by show functionCallsOf exChatResponse ≠ []; decide⟩)

/-- Claim C7: a function call naming an unregistered tool yields an
unknown-tool error payload, a handler that raises yields an error payload
with the exception message, a successful handler yields a result payload —
in every case a payload is produced and fed back, and the tool loop as a
whole never propagates an exception to its caller. -/
theorem C7_tool_errors_fed_back
    (tool_handlers : String → Option (String → ToolOutcome)) (name args : String) :
    (tool_handlers name = none →
      toolReplyFor tool_handlers name args = ToolReply.error ("Unknown tool: " ++ name)) ∧
    (∀ h e, tool_handlers name = some h → h args = ToolOutcome.exn e →
      toolReplyFor tool_handlers name args = ToolReply.error e) ∧
    (∀ h r, tool_handlers name = some h → h args = ToolOutcome.ok r →
      toolReplyFor tool_handlers name args = ToolReply.result r) ∧
    (∀ (respond : Nat → ChatResponse) (max_turns : Nat),
      ∃ s, chat_with_tools respond tool_handlers max_turns = Except.ok s) := by
  refine ⟨?_, ?_, ?_, ?_⟩
  · intro hn
    simp only [toolReplyFor, hn]
  · intro h e hh he
    simp only [toolReplyFor, hh, he]
  · intro h r hh hr
    simp only [toolReplyFor, hh, hr]
  · intro respond max_turns
    exact chatLoop_isOk respond tool_handlers max_turns 0

/-- Witness for C7: the unknown-tool payload at a concrete name, and a
concrete loop run returning a value. -/
theorem C7_witness :
    toolReplyFor exHandlers "get_company_fundamentals" "args" =
      ToolReply.error ("Unknown tool: " ++ "get_company_fundamentals") ∧
    ∃ s, chat_with_tools exRespond exHandlers 1 = Except.ok s :=
  ⟨(C7_tool_errors_fed_back exHandlers "get_company_fundamentals" "args").1 rfl,
   (C7_tool_errors_fed_back exHandlers "get_company_fundamentals" "args").2.2.2 exRespond 1⟩

/-- Claim C10: if the tool loop terminates on a response with no candidates
(the first `k` responses keep the loop going and response `k`, within budget,
has an empty candidate list), `chat_with_tools` returns the empty string
rather than raising. -/
theorem C10_empty_candidates_empty_string (respond : Nat → ChatResponse)
    (tool_handlers : String → Option (String → ToolOutcome)) (max_turns k : Nat)
    (hk : k ≤ max_turns)
    (h : ∀ j : Nat, j < k →
      (respond j).candidates.isEmpty = false ∧ functionCallsOf (respond j) ≠ [])
    (hempty : (respond k).candidates = []) :
    chat_with_tools respond tool_handlers max_turns = Except.ok "" :=
  chatLoop_empty_stop respond tool_handlers max_turns 0 k (Nat.zero_le k)
    (by omega) (fun j _ hj2 => h j hj2) hempty

/-- A model whose every response has an empty candidate list. -/
def exRespondEmpty : Nat → ChatResponse := fun _ => { candidates := [], text := "unused" }

/-- Witness for C10: the loop stops immediately on an empty candidate list
and returns the empty string. -/
theorem C10_witness :
    chat_with_tools exRespondEmpty exHandlers 5 = Except.ok "" :=
  C10_empty_candidates_empty_string exRespondEmpty exHandlers 5 0 (by omega)
    (fun j hj => absurd hj (Nat.not_lt_zero j)) rfl

/-! ### Claims about `parse_json_response` and the cache service -/

/-- Whether a result is a (raised) `AgentReasoningError`. -/
def isReasoningErr {T : Type} : Except PyErr T → Bool
  | Except.error (PyErr.reasoning _ _ _) => true
  | _ => false

/-- An oracle `json.loads` that always succeeds. -/
def exJsonLoadsOk : String → Except String Nat := fun _ => Except.ok 0

/-- An oracle `json.loads` that always raises `JSONDecodeError`. -/
def exJsonLoadsErr : String → Except String Nat := fun _ => Except.error "Expecting value"

/-- An oracle pydantic constructor that always raises a validation error. -/
def exValidateErr : Nat → Except String Nat :=
  fun _ => Except.error "1 validation error for Output"

/-- Counterexample to claim C5: on a schema-validation failure the parser
re-raises the original validation exception unchanged — the error is not a
ReasoningError. -/
theorem C5_counterexample :
    parse_json_response exJsonLoadsOk exValidateErr "not valid for the schema" =
      Except.error (PyErr.other "1 validation error for Output") ∧
    isReasoningErr (parse_json_response exJsonLoadsOk exValidateErr "not valid for the schema") = false :=
  ⟨rfl, rfl⟩

/-- Claim C5 (amended): the parser strips a leading code-fence marker and a
trailing fence before parsing; a JSON parse failure raises a ReasoningError
carrying a truncated prefix of the raw text, while a schema-validation
failure propagates the original exception unchanged (the bare `raise`), and
success returns the validated value. -/
theorem C5_amended_parse_error_paths {J T : Type}
    (jsonLoads : String → Except String J) (validate : J → Except String T)
    (response_text : String) :
    (∀ e, jsonLoads (stripFences response_text) = Except.error e →
      parse_json_response jsonLoads validate response_text =
        Except.error (PyErr.reasoning "google_ai" ("Invalid JSON in response: " ++ e)
          (some (strTake response_text 500)))) ∧
    (∀ d e, jsonLoads (stripFences response_text) = Except.ok d →
      validate d = Except.error e →
      parse_json_response jsonLoads validate response_text =
        Except.error (PyErr.other e)) ∧
    (∀ d v, jsonLoads (stripFences response_text) = Except.ok d →
      validate d = Except.ok v →
      parse_json_response jsonLoads validate response_text = Except.ok v) := by
  refine ⟨?_, ?_, ?_⟩
  · intro e he
    simp only [parse_json_response, he]
  · intro d e hd he
    simp only [parse_json_response, hd, he]
  · intro d v hd hv
    simp only [parse_json_response, hd, hv]

/-- Witness for the amended C5 on the JSON-parse-failure path. -/
theorem C5_witness :
    parse_json_response exJsonLoadsErr exValidateErr "abc" =
      Except.error (PyErr.reasoning "google_ai"
        ("Invalid JSON in response: " ++ "Expecting value") (some "abc")) :=
  (C5_amended_parse_error_paths exJsonLoadsErr exValidateErr "abc").1 "Expecting value" rfl

/-- Claim C9: cache operations are total and best-effort — when caching is
disabled or no redis client is available, `get` misses and `set` reports
failure; when the underlying store raises on `get` or `setex`, the exception
is swallowed and the operation degrades to a miss / `False`.  (Raising is not
representable: both embedded operations return plain `Option`/`Bool` values
with every exception path of the source mapped through its `except` clause.) -/
theorem C9_cache_best_effort {J : Type} (enabled : Bool)
    (connect : Option RedisClient) (keygen : Except String String)
    (jsonLoads : String → Except String J) (encode : Except String String)
    (ttl : Nat) :
    (enabled = false →
      CacheService.get enabled connect keygen jsonLoads = none ∧
      CacheService.set enabled connect keygen encode ttl = false) ∧
    (connect = none →
      CacheService.get enabled connect keygen jsonLoads = none ∧
      CacheService.set enabled connect keygen encode ttl = false) ∧
    (∀ r key, connect = some r → keygen = Except.ok key →
      (∀ e, r.getv key = Except.error e →
        CacheService.get enabled connect keygen jsonLoads = none) ∧
      (∀ v e, encode = Except.ok v → r.setex key ttl v = Except.error e →
        CacheService.set enabled connect keygen encode ttl = false)) := by
  refine ⟨?_, ?_, ?_⟩
  · intro hdis
    subst hdis
    exact ⟨rfl, rfl⟩
  · intro hconn
    subst hconn
    cases enabled <;> exact ⟨rfl, rfl⟩
  · intro r key hconn hkey
    subst hconn
    subst hkey
    cases enabled with
    | false => exact ⟨fun e _ => rfl, fun v e _ _ => rfl⟩
    | true =>
      constructor
      · intro e hget
        simp only [CacheService.get, hget]
        rfl
      · intro v e henc hset
        subst henc
        simp only [CacheService.set, hset]
        rfl

/-- A redis client whose operations always raise. -/
def exRedisFailing : RedisClient :=
  { getv := fun _ => Except.error "connection reset",
    setex := fun _ _ _ => Except.error "connection reset" }

/-- Witness for C9: a failing store degrades `get` to a miss and `set` to
`False`. -/
theorem C9_witness :
    CacheService.get true (some exRedisFailing) (Except.ok "agent:k:h") exJsonLoadsOk = none ∧
    CacheService.set true (some exRedisFailing) (Except.ok "agent:k:h") (Except.ok "v") 60 = false :=
  ⟨((C9_cache_best_effort true (some exRedisFailing) (Except.ok "agent:k:h")
      exJsonLoadsOk (Except.ok "v") 60).2.2 exRedisFailing "agent:k:h" rfl rfl).1
      "connection reset" rfl,
   ((C9_cache_best_effort true (some exRedisFailing) (Except.ok "agent:k:h")
      exJsonLoadsOk (Except.ok "v") 60).2.2 exRedisFailing "agent:k:h" rfl rfl).2
      "v" "connection reset" rfl rfl⟩

/-! ### Claims about the summary-generation agent -/

/-- Every bullet accumulated by the news loop either was already in the
accumulator or passed the causal-language check. -/
theorem mem_phase1_causal (input : SummaryGenerationAgentInput) (ot : String)
    (l : List NewsWithImpact) (bullets : List MarketSummaryBullet)
    (used : List String) (b : MarketSummaryBullet)
    (hb : b ∈ (_causal_phase1 input ot l bullets used).1) :
    b ∈ bullets ∨ _has_causal_language b.text = true := by
  induction l generalizing bullets used with
  | nil => exact Or.inl hb
  | cons nwi rest ih =>
    rw [_causal_phase1] at hb
    split at hb
    · exact Or.inl hb
    · split at hb
      next hcond =>
        rcases ih _ _ hb with hmem | hc
        · rcases List.mem_append.mp hmem with h1 | h2
          · exact Or.inl h1
          · have hb2 := List.mem_singleton.mp h2
            subst hb2
            exact Or.inr hcond.2
        · exact Or.inr hc
      next => exact ih _ _ hb

/-- Every bullet accumulated by the theme loop either was already in the
accumulator or passed the causal-language check. -/
theorem mem_phase2_causal (input : SummaryGenerationAgentInput) (ot : String)
    (themes : List ThemeGroup) (bullets : List MarketSummaryBullet)
    (used : List String) (b : MarketSummaryBullet)
    (hb : b ∈ _causal_phase2 input ot themes bullets used) :
    b ∈ bullets ∨ _has_causal_language b.text = true := by
  induction themes generalizing bullets used with
  | nil => exact Or.inl hb
  | cons theme rest ih =>
    rw [_causal_phase2] at hb
    split at hb
    · exact Or.inl hb
    · split at hb
      · exact ih _ _ hb
      · split at hb
        next hcond =>
          rcases ih _ _ hb with hmem | hc
          · rcases List.mem_append.mp hmem with h1 | h2
            · exact Or.inl h1
            · have hb2 := List.mem_singleton.mp h2
              subst hb2
              exact Or.inr hcond.2
          · exact Or.inr hc
        next => exact ih _ _ hb

/-- Every generated summary bullet passes the causal-language check. -/
theorem mem_generate_causal (input : SummaryGenerationAgentInput)
    (b : MarketSummaryBullet) (hb : b ∈ _generate_causal_summaries input) :
    _has_causal_language b.text = true := by
  rw [_generate_causal_summaries] at hb
  rcases mem_phase2_causal _ _ _ _ _ _ hb with h1 | h2
  · rcases mem_phase1_causal _ _ _ _ _ _ h1 with h0 | hc
    · exact absurd h0 (List.not_mem_nil b)
    · exact hc
  · exact h2

/-- Fixture: a bullish news item for the concrete agent inputs. -/
def sumNews1 : NewsItem :=
  { id := "n1", headline := "Earnings Beat", published_at := 10, sentiment := "bullish" }

/-- Fixture: its impact record (confidence 0.5, one impacted stock). -/
def sumNwi1 : NewsWithImpact :=
  { news_id := "n1", news_item := sumNews1, impacted_stocks := [{ ticker := "TCS" }],
    sector_impacts := [], impact_confidence := mkRat 1 2 }

/-- Fixture: an allowed-catalog theme not containing `sumNews1`. -/
def sumTheme1 : ThemeGroup :=
  { theme_name := "Banking & Financials", news_items := [],
    overall_sentiment := "bullish", impacted_stocks := ["INFY"] }

/-- Fixture: a pre-market input with one news impact and one theme. -/
def sumInput1 : SummaryGenerationAgentInput :=
  { market_phase := MarketPhase.pre, news_with_impacts := [sumNwi1],
    refined_themes := [sumTheme1], market_outlook := none,
    portfolio_impact := none, indices_data := [], max_bullets := 3 }

/-- The news-derived bullet the agent produces for `sumInput1`. -/
def sumBullet1 : MarketSummaryBullet :=
  { text := "TCS gained driven by earnings beat.", supporting_news_ids := ["n1"],
    confidence := mkRat 1 2, sentiment := "bullish" }

/-- Claim C1: the causal-keyword catalog has 13 entries, and every bullet
returned by `execute` in a pre or post market phase contains at least one
catalog entry, case-insensitively, as a substring of its text. -/
theorem C1_bullets_have_causal_keyword :
    CAUSAL_KEYWORDS.length = 13 ∧
    ∀ (input : SummaryGenerationAgentInput) (bs : List MarketSummaryBullet)
      (b : MarketSummaryBullet),
      (input.market_phase = MarketPhase.pre ∨ input.market_phase = MarketPhase.post) →
      (execute input).market_summary_bullets = some bs →
      b ∈ bs →
      ∃ kw ∈ CAUSAL_KEYWORDS, kw.data <:+: (strLower b.text).data := by
  refine ⟨rfl, ?_⟩
  intro input bs b hphase hbs hb
  have hmid : ¬ input.market_phase = MarketPhase.mid := by
    rcases hphase with h | h <;> rw [h] <;> intro hc <;> exact MarketPhase.noConfusion hc
  rw [execute, if_neg hmid] at hbs
  simp only [Option.some_inj] at hbs
  subst hbs
  have hc := mem_generate_causal input b hb
  rw [_has_causal_language] at hc
  obtain ⟨kw, hkw, hin⟩ := List.any_eq_true.mp hc
  exact ⟨kw, hkw, (pyIn_iff kw (strLower b.text)).mp hin⟩

/-- Witness for C1 at the concrete pre-market input: the first generated
bullet contains a causal keyword. -/
theorem C1_witness :
    ∃ kw ∈ CAUSAL_KEYWORDS, kw.data <:+: (strLower sumBullet1.text).data :=
  C1_bullets_have_causal_keyword.2 sumInput1 (_generate_causal_summaries sumInput1)
    sumBullet1 (Or.inl rfl) rfl (by decide)

/-- Claim C3: `market_summary_bullets` is null exactly in the mid phase, and
`trending_now_section` is null exactly in the pre and post phases. -/
theorem C3_null_fields_iff_phase (input : SummaryGenerationAgentInput) :
    ((execute input).market_summary_bullets = none ↔
      input.market_phase = MarketPhase.mid) ∧
    ((execute input).trending_now_section = none ↔
      (input.market_phase = MarketPhase.pre ∨ input.market_phase = MarketPhase.post)) := by
  cases hp : input.market_phase with
  | pre => simp [execute, hp]
  | mid => simp [execute, hp]
  | post => simp [execute, hp]

/-- Claim C4: in the mid phase, the trending section exists, has at most 5
items, each item is the `news_item` of one of the input impacts, and the
items are in non-increasing order of `published_at`. -/
theorem C4_trending_now_properties (input : SummaryGenerationAgentInput)
    (h : input.market_phase = MarketPhase.mid) :
    ∃ l, (execute input).trending_now_section = some l ∧
      l.length ≤ 5 ∧
      (∀ x ∈ l, ∃ nwi ∈ input.news_with_impacts, x = nwi.news_item) ∧
      l.Pairwise (fun a b => b.published_at ≤ a.published_at) := by
  refine ⟨_generate_trending_now input, ?_, ?_, ?_, ?_⟩
  · simp [execute, h]
  · exact List.length_take_le 5 _
  · intro x hx
    have hx2 := List.mem_of_mem_take hx
    have hx3 := (mem_sortDescBy (fun item => item.published_at) x _).mp hx2
    obtain ⟨nwi, hmem, heq⟩ := List.mem_map.mp hx3
    exact ⟨nwi, hmem, heq.symm⟩
  · have hp := pairwise_sortDescBy (fun item : NewsItem => item.published_at)
      (input.news_with_impacts.map (fun nwi => nwi.news_item))
    exact hp.sublist (List.take_sublist 5 _)

/-- Fixture: an older neutral news item. -/
def sumNewsOld : NewsItem :=
  { id := "n2", headline := "RBI Holds Rates", published_at := 3, sentiment := "neutral" }

/-- Fixture: its impact record. -/
def sumNwi2 : NewsWithImpact :=
  { news_id := "n2", news_item := sumNewsOld, impacted_stocks := [],
    sector_impacts := [], impact_confidence := mkRat 9 10 }

/-- Fixture: a mid-market input with two news impacts. -/
def sumInputMid : SummaryGenerationAgentInput :=
  { market_phase := MarketPhase.mid, news_with_impacts := [sumNwi2, sumNwi1],
    refined_themes := [], market_outlook := none,
    portfolio_impact := none, indices_data := [], max_bullets := 3 }

/-- Witness for C4 at the concrete mid-market input. -/
theorem C4_witness :
    ∃ l, (execute sumInputMid).trending_now_section = some l ∧
      l.length ≤ 5 ∧
      (∀ x ∈ l, ∃ nwi ∈ sumInputMid.news_with_impacts, x = nwi.news_item) ∧
      l.Pairwise (fun a b => b.published_at ≤ a.published_at) :=
  C4_trending_now_properties sumInputMid rfl

/-- The news loop keeps its accumulator sorted by non-increasing confidence
when fed news sorted by non-increasing impact confidence. -/
theorem phase1_pairwise (input : SummaryGenerationAgentInput) (ot : String)
    (l : List NewsWithImpact) (bullets : List MarketSummaryBullet)
    (used : List String)
    (hpb : bullets.Pairwise (fun a b => b.confidence ≤ a.confidence))
    (hinv : ∀ b ∈ bullets, ∀ nwi ∈ l, nwi.impact_confidence ≤ b.confidence)
    (hl : l.Pairwise (fun a b => b.impact_confidence ≤ a.impact_confidence)) :
    (_causal_phase1 input ot l bullets used).1.Pairwise
      (fun a b => b.confidence ≤ a.confidence) := by
  induction l generalizing bullets used with
  | nil => exact hpb
  | cons nwi rest ih =>
    rw [_causal_phase1]
    split
    · exact hpb
    · split
      · apply ih
        · rw [List.pairwise_append]
          refine ⟨hpb, List.pairwise_singleton _ _, ?_⟩
          intro a ha b2 hb2
          have hb3 := List.mem_singleton.mp hb2
          subst hb3
          exact hinv a ha nwi (List.mem_cons_self nwi rest)
        · intro b hb nwi2 hn2
          rcases List.mem_append.mp hb with h1 | h2
          · exact hinv b h1 nwi2 (List.mem_cons_of_mem nwi hn2)
          · have hb3 := List.mem_singleton.mp h2
            subst hb3
            exact (List.pairwise_cons.mp hl).1 nwi2 hn2
        · exact (List.pairwise_cons.mp hl).2
      · exact ih bullets _ hpb
          (fun b hb nwi2 hn2 => hinv b hb nwi2 (List.mem_cons_of_mem nwi hn2))
          (List.pairwise_cons.mp hl).2

/-- The theme loop only appends bullets, all with the fixed confidence 0.75. -/
theorem phase2_append (input : SummaryGenerationAgentInput) (ot : String)
    (themes : List ThemeGroup) (bullets : List MarketSummaryBullet)
    (used : List String) :
    ∃ tail, _causal_phase2 input ot themes bullets used = bullets ++ tail ∧
      ∀ b ∈ tail, b.confidence = mkRat 3 4 := by
  induction themes generalizing bullets used with
  | nil =>
    refine ⟨[], ?_, by simp⟩
    rw [_causal_phase2, List.append_nil]
  | cons theme rest ih =>
    rw [_causal_phase2]
    split
    · exact ⟨[], (List.append_nil bullets).symm, by simp⟩
    · split
      · exact ih bullets used
      · split
        · obtain ⟨tail, heq, hconf⟩ := ih (bullets ++
            [{ text := _create_theme_bullet theme ot,
               supporting_news_ids := (theme.news_items.take 2).map (·.id),
               confidence := mkRat 3 4,
               sentiment := theme.overall_sentiment }]) used
          refine ⟨{ text := _create_theme_bullet theme ot,
                    supporting_news_ids := (theme.news_items.take 2).map (·.id),
                    confidence := mkRat 3 4,
                    sentiment := theme.overall_sentiment } :: tail, ?_, ?_⟩
          · rw [heq, List.append_assoc]
            rfl
          · intro b hb
            rcases List.mem_cons.mp hb with h1 | h2
            · subst h1
              rfl
            · exact hconf b h2
        · exact ih bullets used

/-- Claim C6 (amended): the returned bullet list is the news-derived bullets
— in non-increasing confidence order, each confidence being the originating
news impact confidence — followed by the theme-derived bullets, each with
fixed confidence 0.75; the concatenation need not be globally sorted by
confidence. -/
theorem C6_amended_bullet_order (input : SummaryGenerationAgentInput) :
    ∃ newsBullets themeBullets,
      _generate_causal_summaries input = newsBullets ++ themeBullets ∧
      newsBullets.Pairwise (fun a b => b.confidence ≤ a.confidence) ∧
      ∀ b ∈ themeBullets, b.confidence = mkRat 3 4 := by
  obtain ⟨tail, heq, hconf⟩ := phase2_append input (outlookText input)
    input.refined_themes
    (_causal_phase1 input (outlookText input) (topSortedNews input) [] []).1
    (_causal_phase1 input (outlookText input) (topSortedNews input) [] []).2
  refine ⟨(_causal_phase1 input (outlookText input) (topSortedNews input) [] []).1,
    tail, heq, ?_, hconf⟩
  apply phase1_pairwise
  · exact List.Pairwise.nil
  · intro b hb
    exact absurd hb (List.not_mem_nil b)
  · have hp := pairwise_sortDescBy (fun nwi : NewsWithImpact => nwi.impact_confidence)
      input.news_with_impacts
    exact hp.sublist (List.take_sublist 5 _)

/-- Counterexample to claim C6 as stated: for `sumInput1` the agent returns a
news bullet of confidence 0.5 followed by a theme bullet of confidence 0.75,
so the list is not ordered by descending confidence. -/
theorem C6_counterexample :
    (_generate_causal_summaries sumInput1).map (fun b => b.confidence) =
      [mkRat 1 2, mkRat 3 4] ∧
    ¬ (_generate_causal_summaries sumInput1).Pairwise
        (fun a b => b.confidence ≤ a.confidence) := by
  constructor
  · decide
  · decide
